import Mathlib

/-!
# Verification of the pcars2-dashboard telemetry pipeline

Shallow embedding of the two Python scripts `f12020show.py` (Adapter A,
F1 2020) and `pcars2show.py` (Adapter B, Project Cars 2).  A datagram is a
list of byte values; the `struct` format strings of the source are embedded
as lists of format codes interpreted little-endian with no padding, exactly
as Python's `struct.unpack_from` does for a `<`-prefixed format.  Python
floats read from the wire are never consumed numerically by either script
(the only numeric uses are integer fields), so `f32` fields decode to their
raw 32-bit pattern.  The one place real arithmetic happens — the RPM ratio
and Python's banker-rounding `round` — is modelled over `ℚ`; for the byte
ranges the scripts feed it (percent values with denominator 100 and u16
quotients) the rational value determines the same rounded result as the
IEEE double evaluation.
-/

set_option maxRecDepth 100000

attribute [local semireducible] Rat.mul Rat.inv Rat.add Rat.sub

namespace Pcars2Dash

/-- A datagram: the byte list handed to the loop by `sock.recvfrom`. -/
abbrev Datagram := List Nat

/-- Byte `i` of a datagram (reads of in-range offsets only are ever used). -/
def byteAt (d : Datagram) (i : Nat) : Nat := d.getD i 0

/-- The `struct` format codes appearing in the two scripts
(`H B b Q f I h c`), all little-endian (`<` prefix, no padding). -/
inductive FmtCode
  | u8 | i8 | u16 | i16 | u32 | u64 | f32 | ch
deriving DecidableEq, Repr, Inhabited

/-- Byte width of one format code, as `struct.calcsize` gives it. -/
def FmtCode.size : FmtCode → Nat
  | .u8 => 1
  | .i8 => 1
  | .u16 => 2
  | .i16 => 2
  | .u32 => 4
  | .u64 => 8
  | .f32 => 4
  | .ch => 1

/-- `struct.calcsize` of a whole format. -/
def calcsize (fmt : List FmtCode) : Nat := (fmt.map FmtCode.size).sum

/-- Byte offset of field `i` inside a packed format. -/
def fieldOffset (fmt : List FmtCode) (i : Nat) : Nat := calcsize (fmt.take i)

/-- Little-endian unsigned read of `n` bytes starting at `off`. -/
def leNat (d : Datagram) (off n : Nat) : Nat :=
  (List.range n).foldr (fun k acc => acc * 256 + byteAt d (off + k)) 0

/-- Two's-complement reinterpretation of an unsigned `bits`-bit value. -/
def toSigned (v : Nat) (bits : Nat) : Int :=
  if v < 2 ^ (bits - 1) then (v : Int) else (v : Int) - 2 ^ bits

/-- Decode one field at `off`.  Unsigned and signed integers follow the
`struct` codes; `f32`/`ch` yield the raw little-endian pattern (neither
script uses a float or char field numerically). -/
def readField (d : Datagram) (off : Nat) : FmtCode → Int
  | .u8 => leNat d off 1
  | .i8 => toSigned (leNat d off 1) 8
  | .u16 => leNat d off 2
  | .i16 => toSigned (leNat d off 2) 16
  | .u32 => leNat d off 4
  | .u64 => leNat d off 8
  | .f32 => leNat d off 4
  | .ch => leNat d off 1

/-- The field list produced by unpacking `fmt` at byte offset `off`. -/
def unpackFields (fmt : List FmtCode) (d : Datagram) (off : Nat) : List Int :=
  match fmt with
  | [] => []
  | c :: rest => readField d off c :: unpackFields rest d (off + c.size)

/-- `struct.unpack_from`: requires the buffer to hold one whole record at
`off`, otherwise it raises `struct.error` (modelled as `none`). -/
def unpackFrom (fmt : List FmtCode) (d : Datagram) (off : Nat) : Option (List Int) :=
  if off + calcsize fmt ≤ d.length then some (unpackFields fmt d off) else none

/-- Adapter A header format string `<HBBBBQfIBB` of `f12020show.py`. -/
def packetHeaderFormat : List FmtCode :=
  [.u16, .u8, .u8, .u8, .u8, .u64, .f32, .u32, .u8, .u8]

/-- Adapter A per-car record format string `<HfffBbHBB4H4B4BH4f4B`. -/
def carTelemetryFormat : List FmtCode :=
  [.u16, .f32, .f32, .f32, .u8, .i8, .u16, .u8, .u8]
    ++ List.replicate 4 .u16 ++ List.replicate 4 .u8 ++ List.replicate 4 .u8
    ++ [.u16] ++ List.replicate 4 .f32 ++ List.replicate 4 .u8

/-- Adapter B base-header format string `<IIBBBB` of `pcars2show.py`. -/
def packetBaseFormat : List FmtCode :=
  [.u32, .u32, .u8, .u8, .u8, .u8]

/-- Adapter B car-physics format string
`<IIBBBBbBBbBBhHhHHBBBBffHHbBBBf3f3f3f3f3f3f3f4B4B4f4f4B4f4B4B4B4h4H4H4H4H4H4H4H4H4f4f4f4f4H4Hff2BBBBIB40c40c40c40cf3fBI`,
expanded code by code (each repeat count yields that many fields, and each
`c` yields one one-byte field, exactly as Python's `unpack` tuple does). -/
def carPhysicsFormat : List FmtCode :=
  [.u32, .u32, .u8, .u8, .u8, .u8,
   .i8, .u8, .u8, .i8, .u8, .u8,
   .i16, .u16, .i16, .u16, .u16,
   .u8, .u8, .u8, .u8,
   .f32, .f32, .u16, .u16, .i8, .u8, .u8, .u8, .f32]
    ++ List.replicate 21 .f32      -- 3f x7: orientation .. extents centre
    ++ List.replicate 8 .u8        -- 4B 4B: tyre flags, terrain
    ++ List.replicate 8 .f32       -- 4f 4f: tyre Y, tyre RPS
    ++ List.replicate 4 .u8        -- 4B: tyre temp
    ++ List.replicate 4 .f32       -- 4f: tyre height above ground
    ++ List.replicate 12 .u8       -- 4B x3: wear, brake damage, susp damage
    ++ List.replicate 4 .i16       -- 4h: brake temp
    ++ List.replicate 32 .u16      -- 4H x8: tread .. temp right
    ++ List.replicate 16 .f32      -- 4f x4: wheel local Y .. susp velocity
    ++ List.replicate 8 .u16       -- 4H 4H: susp ride height, air pressure
    ++ [.f32, .f32]                -- engine speed, engine torque
    ++ [.u8, .u8]                  -- 2B: wings
    ++ [.u8, .u8, .u8]             -- handbrake, aero damage, engine damage
    ++ [.u32, .u8]                 -- joypad, dpad
    ++ List.replicate 160 .ch      -- 40c x4: tyre compound names
    ++ [.f32] ++ List.replicate 3 .f32 ++ [.u8, .u32]
                                   -- turbo boost, full position, brake bias, tick count

example : calcsize packetHeaderFormat = 24 := by decide
example : calcsize carTelemetryFormat = 58 := by decide
example : calcsize packetBaseFormat = 12 := by decide
example : calcsize carPhysicsFormat = 559 := by decide
example : fieldOffset carTelemetryFormat 5 = 15 := by decide
example : fieldOffset carTelemetryFormat 8 = 19 := by decide
example : fieldOffset carPhysicsFormat 23 = 40 := by decide
example : fieldOffset carPhysicsFormat 24 = 42 := by decide
example : fieldOffset carPhysicsFormat 26 = 45 := by decide

/-- Reading one byte little-endian is just that byte. -/
theorem leNat_one (d : Datagram) (off : Nat) : leNat d off 1 = byteAt d off := by
  simp [leNat, List.range_succ]

/-- Offset of field `i + 1` in a cons format. -/
theorem fieldOffset_cons_succ (c : FmtCode) (rest : List FmtCode) (i : Nat) :
    fieldOffset (c :: rest) (i + 1) = c.size + fieldOffset rest i := by
  simp [fieldOffset, calcsize]

/-- Element `i` of an unpacked field list is the decode of code `i` at its
packed offset. -/
theorem unpackFields_get? (fmt : List FmtCode) (d : Datagram) (off i : Nat) :
    (unpackFields fmt d off).get? i =
      (fmt.get? i).map (fun c => readField d (off + fieldOffset fmt i) c) := by
  induction fmt generalizing off i with
  | nil => simp [unpackFields]
  | cons c rest ih =>
    cases i with
    | zero => simp [unpackFields, fieldOffset, calcsize]
    | succ n =>
      simp only [unpackFields, List.get?, ih, fieldOffset_cons_succ, List.get?]
      rw [Nat.add_assoc]

/-! ## Display model

Both scripts hold identical copies of `GEAR_BITS`, `GEAR_NAMES`,
`RPM_LEDS`, `draw_gear` and the per-LED loop of `draw_rev`; they are
embedded once.  A `Write` records one `Led_matrix.set_pixel(x, y, r, g, b)`
call. -/

/-- One `set_pixel` call issued to the display. -/
structure Write where
  x : Nat
  y : Nat
  r : Nat
  g : Nat
  b : Nat
deriving DecidableEq, Repr

/-- `GEAR_BITS`: 16 glyph bitmaps (8 rows of 8 bits), copied digit for
digit from the table shared by both scripts. -/
def GEAR_BITS : List (List Nat) := [
  [0b00000000, 0b00000000, 0b00100001, 0b00110001,
   0b00101001, 0b00100101, 0b00100011, 0b00100001],  -- N = Neutral
  [0b00000000, 0b00000000, 0b00000010, 0b00000110,
   0b00000010, 0b00000010, 0b00000010, 0b00001111],  -- 1 = First gear
  [0b00000000, 0b00000000, 0b00000110, 0b00001001,
   0b00000001, 0b00000010, 0b00000100, 0b00001111],  -- 2
  [0b00000000, 0b00000000, 0b00000110, 0b00001001,
   0b00000010, 0b00000001, 0b00001001, 0b00000110],  -- 3
  [0b00000000, 0b00000000, 0b00000110, 0b00001010,
   0b00001111, 0b00000010, 0b00000010, 0b00001111],  -- 4
  [0b00000000, 0b00000000, 0b00001111, 0b00001000,
   0b00001110, 0b00000001, 0b00001001, 0b00000110],  -- 5
  [0b00000000, 0b00000000, 0b00000110, 0b00001001,
   0b00001110, 0b00001001, 0b00001001, 0b00000110],  -- 6
  [0b00000000, 0b00000000, 0b00001111, 0b00000010,
   0b00000100, 0b00000100, 0b00001000, 0b00001000],  -- 7
  [0b00000000, 0b00000000, 0b00000110, 0b00001001,
   0b00000110, 0b00001001, 0b00001001, 0b00000110],  -- 8
  [0b00000000, 0b00000000, 0b00000110, 0b00001001,
   0b00000111, 0b00000010, 0b00000100, 0b00001000],  -- 9
  [0b00000000, 0b00000000, 0b00100110, 0b00101001,
   0b00101001, 0b00101001, 0b00101001, 0b00100110],  -- 10
  [0b00000000, 0b00000000, 0b00010010, 0b00110110,
   0b00010010, 0b00010010, 0b00010010, 0b00111111],  -- 11
  [0b00000000, 0b00000000, 0b00100110, 0b00101001,
   0b00100001, 0b00100010, 0b00100100, 0b00101111],  -- 12
  [0b00000000, 0b00000000, 0b00100110, 0b00101001,
   0b00100010, 0b00100001, 0b00101001, 0b00100110],  -- 13
  [0b00000000, 0b00000000, 0b00100110, 0b00101010,
   0b00101111, 0b00100010, 0b00100010, 0b00101111],  -- 14
  [0b00000000, 0b00000000, 0b00111100, 0b00100010,
   0b00111100, 0b00101000, 0b00100100, 0b00100010]]  -- 15 = Reverse

/-- `GEAR_NAMES`, indexed by the same value as `GEAR_BITS` (the `print`
call in both main loops subscripts it before `draw_gear` runs). -/
def GEAR_NAMES : List String :=
  ["N", "1", "2", "3", "4", "5", "6", "7",
   "8", "9", "10", "11", "12", "13", "14", "R"]

/-- Python list subscription `xs[i]`: a nonnegative index reads from the
front, a negative index `i` reads element `len + i`, and anything outside
`-len .. len-1` raises `IndexError` (modelled as `none`). -/
def pyGetElem (xs : List α) (i : Int) : Option α :=
  if 0 ≤ i then xs.get? i.toNat
  else if 0 ≤ (xs.length : Int) + i then xs.get? ((xs.length : Int) + i).toNat
  else none

/-- The 8×8 blit of `draw_gear`: pixel `(w, h)` is magenta where bit
`7 - w` of bitmap row `h` is set, black otherwise. -/
def glyphWrites (bitmap : List Nat) : List Write :=
  (List.range 8).flatMap fun h =>
    (List.range 8).map fun w =>
      if bitmap.getD h 0 &&& (1 <<< (7 - w)) ≠ 0 then ⟨w, h, 255, 0, 255⟩
      else ⟨w, h, 0, 0, 0⟩

/-- `draw_gear(gear_index)`: subscript `GEAR_BITS` with Python semantics,
then blit; `none` is an escaping `IndexError`. -/
def drawGear (gear_index : Int) : Option (List Write) :=
  (pyGetElem GEAR_BITS gear_index).map glyphWrites

/-- One entry of `RPM_LEDS`: a path position and its fixed color. -/
structure RpmLed where
  row : Nat
  col : Nat
  red : Nat
  green : Nat
  blue : Nat
deriving DecidableEq, Repr, Inhabited

/-- `RPM_LEDS`: the fixed 15-cell meter path (bottom-left corner up column
0, then across row 0), green then red then blue. -/
def RPM_LEDS : List RpmLed := [
  ⟨7, 0, 0, 255, 0⟩, ⟨6, 0, 0, 255, 0⟩, ⟨5, 0, 0, 255, 0⟩,
  ⟨4, 0, 0, 255, 0⟩, ⟨3, 0, 0, 255, 0⟩,
  ⟨2, 0, 255, 0, 0⟩, ⟨1, 0, 255, 0, 0⟩, ⟨1, 1, 255, 0, 0⟩,
  ⟨0, 1, 255, 0, 0⟩, ⟨0, 2, 255, 0, 0⟩,
  ⟨0, 3, 0, 0, 255⟩, ⟨0, 4, 0, 0, 255⟩, ⟨0, 5, 0, 0, 255⟩,
  ⟨0, 6, 0, 0, 255⟩, ⟨0, 7, 0, 0, 255⟩]

/-- Python's `round`: nearest integer, ties to the even neighbour. -/
def pyRound (q : ℚ) : Int :=
  if q - q.floor < (1 : ℚ)/2 then q.floor
  else if (1 : ℚ)/2 < q - q.floor then q.floor + 1
  else if q.floor % 2 = 0 then q.floor else q.floor + 1

/-- The per-LED loop shared by both `draw_rev` bodies: LED `l` gets its
own color when `l < rpm_indicator_stop`, black otherwise. -/
def drawRevStop (stop : Int) : List Write :=
  (List.range RPM_LEDS.length).map fun l =>
    let led := RPM_LEDS.getD l default
    if (l : Int) < stop then ⟨led.col, led.row, led.red, led.green, led.blue⟩
    else ⟨led.col, led.row, 0, 0, 0⟩

/-- Both `draw_rev` bodies compute `round(ratio * len(RPM_LEDS))` from a
ratio obtained by Python true division, then run the per-LED loop. -/
def drawRev (ratio : ℚ) : List Write :=
  drawRevStop (pyRound (ratio * (RPM_LEDS.length : ℚ)))

/-- `f12020show.draw_rev(rev_lights)`: the ratio is `rev_lights / 100.0`. -/
def drawRevA (rev_lights : Nat) : List Write :=
  drawRev ((rev_lights : ℚ) / 100)

/-- Python exceptions that can escape the two main loops. -/
inductive PyError
  | structError        -- struct.error from unpack / unpack_from
  | zeroDivisionError  -- ZeroDivisionError from rpm / maxrpm
  | indexError         -- IndexError from list subscription
deriving DecidableEq, Repr

/-- `pcars2show.draw_rev(rpm, maxrpm)`: `rpm / maxrpm` raises
`ZeroDivisionError` when `maxrpm` is 0 (both fields are unsigned 16-bit
integers); there is no guard and no clamp in the source. -/
def drawRevB (rpm maxrpm : Nat) : Except PyError (List Write) :=
  if maxrpm = 0 then .error .zeroDivisionError
  else .ok (drawRev ((rpm : ℚ) / (maxrpm : ℚ)))

/-! ## The two per-datagram pipelines -/

/-- Outcome of one loop iteration on one datagram: the `set_pixel` calls
made (in order), whether `Led_matrix.show()` was reached, and the Python
exception that escaped, if any. -/
structure CycleResult where
  writes : List Write
  flushed : Bool
  error : Option PyError
deriving DecidableEq, Repr

/-- The extraction step of `f12020show.main`: unpack one car-telemetry
record at `header size + record size * m_playerCarIndex` and take fields
`m_gear` (index 5) and `m_revLightsPercent` (index 8). -/
def extractA (d : Datagram) : Option (Int × Int) :=
  let hdr := unpackFields packetHeaderFormat d 0
  let off := calcsize packetHeaderFormat +
    calcsize carTelemetryFormat * (hdr.getD 8 0).toNat
  match unpackFrom carTelemetryFormat d off with
  | none => none
  | some fields => some (fields.getD 5 0, fields.getD 8 0)

/-- The rendering tail of `f12020show.main`: the `print` subscripts
`GEAR_NAMES[current_gear]`, then `draw_gear` and `draw_rev` run. -/
def renderA (current_gear rev_lights : Int) : CycleResult :=
  match pyGetElem GEAR_NAMES current_gear, drawGear current_gear with
  | some _, some gearWrites =>
    ⟨gearWrites ++ drawRevA rev_lights.toNat, true, none⟩
  | _, _ => ⟨[], false, some .indexError⟩

/-- One iteration of `f12020show.main` on one received datagram. -/
def processA (d : Datagram) : CycleResult :=
  if calcsize packetHeaderFormat ≤ d.length then
    let hdr := unpackFields packetHeaderFormat d 0
    -- m_packetFormat == 2020 and m_packetId == ePacketType.eCarTelemetry
    if hdr.getD 0 0 = 2020 ∧ hdr.getD 4 0 = 6 then
      match extractA d with
      | none => ⟨[], false, some .structError⟩
      | some (current_gear, rev_lights) => renderA current_gear rev_lights
    else ⟨[], false, none⟩
  else ⟨[], false, none⟩

/-- The rendering tail of `pcars2show.main`: `print` subscripts
`GEAR_NAMES[current_gear]`, `draw_gear` paints the glyph, then `draw_rev`
divides `sRpm / sMaxRpm`. -/
def renderB (current_gear sRpm sMaxRpm : Nat) : CycleResult :=
  match pyGetElem GEAR_NAMES (current_gear : Int),
        drawGear (current_gear : Int) with
  | some _, some gearWrites =>
    match drawRevB sRpm sMaxRpm with
    | .ok revWrites => ⟨gearWrites ++ revWrites, true, none⟩
    | .error e => ⟨gearWrites, false, some e⟩
  | _, _ => ⟨[], false, some .indexError⟩

/-- One iteration of `pcars2show.main` on one received datagram. -/
def processB (d : Datagram) : CycleResult :=
  if 12 ≤ d.length then
    let hdr := unpackFields packetBaseFormat d 0
    -- mPacketType == ePacketType.eCarPhysics
    if hdr.getD 4 0 = 0 then
      -- unpack of the full format needs the exact packet length
      if d.length = calcsize carPhysicsFormat then
        let fields := unpackFields carPhysicsFormat d 0
        renderB ((fields.getD 26 0).toNat &&& 0x0F)
          (fields.getD 23 0).toNat (fields.getD 24 0).toNat
      else ⟨[], false, some .structError⟩
    else ⟨[], false, none⟩
  else ⟨[], false, none⟩

/-- The blocking `while True` receive loop: datagrams are processed in
order, and an escaping exception terminates the process (there is no
handler in either script). -/
def runLoop (process : Datagram → CycleResult) : List Datagram → List CycleResult
  | [] => []
  | d :: rest =>
    let r := process d
    if r.error.isSome then [r] else r :: runLoop process rest

/-! ## Field-access lemmas -/

/-- `struct.calcsize` of the Adapter A header format is 24. -/
theorem calcsize_hdrA : calcsize packetHeaderFormat = 24 := by decide

/-- `struct.calcsize` of the Adapter A car-telemetry format is 58. -/
theorem calcsize_carTelemetry : calcsize carTelemetryFormat = 58 := by decide

/-- `struct.calcsize` of the Adapter B base-header format is 12. -/
theorem calcsize_hdrB : calcsize packetBaseFormat = 12 := by decide

/-- `struct.calcsize` of the Adapter B car-physics format is 559. -/
theorem calcsize_carPhysics : calcsize carPhysicsFormat = 559 := by decide

/-- `getD` of an unpacked field list, given the format code at index `i`. -/
theorem unpackFields_getD (fmt : List FmtCode) (d : Datagram) (off i : Nat)
    (c : FmtCode) (hc : fmt.get? i = some c) :
    (unpackFields fmt d off).getD i 0 = readField d (off + fieldOffset fmt i) c := by
  rw [List.getD_eq_get?, unpackFields_get?, hc]
  rfl

/-- Adapter A header field 0 is `m_packetFormat`, the u16 at offset 0. -/
theorem hdrA_format (d : Datagram) :
    (unpackFields packetHeaderFormat d 0).getD 0 0 = (leNat d 0 2 : Int) := by
  rw [unpackFields_getD packetHeaderFormat d 0 0 .u16 rfl]
  rfl

/-- Adapter A header field 4 is `m_packetId`, the u8 at offset 5. -/
theorem hdrA_id (d : Datagram) :
    (unpackFields packetHeaderFormat d 0).getD 4 0 = (byteAt d 5 : Int) := by
  rw [unpackFields_getD packetHeaderFormat d 0 4 .u8 rfl]
  show (leNat d (0 + 5) 1 : Int) = _
  rw [leNat_one]

/-- Adapter A header field 8 is `m_playerCarIndex`, the u8 at offset 22. -/
theorem hdrA_player (d : Datagram) :
    (unpackFields packetHeaderFormat d 0).getD 8 0 = (byteAt d 22 : Int) := by
  rw [unpackFields_getD packetHeaderFormat d 0 8 .u8 rfl]
  show (leNat d (0 + 22) 1 : Int) = _
  rw [leNat_one]

/-- Adapter B base-header field 4 is `mPacketType`, the u8 at offset 10. -/
theorem hdrB_type (d : Datagram) :
    (unpackFields packetBaseFormat d 0).getD 4 0 = (byteAt d 10 : Int) := by
  rw [unpackFields_getD packetBaseFormat d 0 4 .u8 rfl]
  show (leNat d (0 + 10) 1 : Int) = _
  rw [leNat_one]

/-- Car-telemetry field 5 (`m_gear`) is the i8 at record offset 15. -/
theorem telemetry_gear (d : Datagram) (off : Nat) :
    (unpackFields carTelemetryFormat d off).getD 5 0 =
      toSigned (byteAt d (off + 15)) 8 := by
  rw [unpackFields_getD carTelemetryFormat d off 5 .i8 (by decide)]
  show toSigned (leNat d (off + fieldOffset carTelemetryFormat 5) 1) 8 = _
  rw [leNat_one]
  norm_num [show fieldOffset carTelemetryFormat 5 = 15 from by decide]

/-- Car-telemetry field 8 (`m_revLightsPercent`) is the u8 at offset 19. -/
theorem telemetry_rev (d : Datagram) (off : Nat) :
    (unpackFields carTelemetryFormat d off).getD 8 0 =
      (byteAt d (off + 19) : Int) := by
  rw [unpackFields_getD carTelemetryFormat d off 8 .u8 (by decide)]
  show (leNat d (off + fieldOffset carTelemetryFormat 8) 1 : Int) = _
  rw [leNat_one]
  norm_num [show fieldOffset carTelemetryFormat 8 = 19 from by decide]

/-- Car-physics field 23 (`sRpm`) is the u16 at offset 40. -/
theorem physics_rpm (d : Datagram) :
    (unpackFields carPhysicsFormat d 0).getD 23 0 = (leNat d 40 2 : Int) := by
  rw [unpackFields_getD carPhysicsFormat d 0 23 .u16 (by decide)]
  show (leNat d (0 + fieldOffset carPhysicsFormat 23) 2 : Int) = _
  norm_num [show fieldOffset carPhysicsFormat 23 = 40 from by decide]

/-- Car-physics field 24 (`sMaxRpm`) is the u16 at offset 42. -/
theorem physics_maxrpm (d : Datagram) :
    (unpackFields carPhysicsFormat d 0).getD 24 0 = (leNat d 42 2 : Int) := by
  rw [unpackFields_getD carPhysicsFormat d 0 24 .u16 (by decide)]
  show (leNat d (0 + fieldOffset carPhysicsFormat 24) 2 : Int) = _
  norm_num [show fieldOffset carPhysicsFormat 24 = 42 from by decide]

/-- Car-physics field 26 (`sGearNumGears`) is the u8 at offset 45. -/
theorem physics_gear (d : Datagram) :
    (unpackFields carPhysicsFormat d 0).getD 26 0 = (byteAt d 45 : Int) := by
  rw [unpackFields_getD carPhysicsFormat d 0 26 .u8 (by decide)]
  show (leNat d (0 + fieldOffset carPhysicsFormat 26) 1 : Int) = _
  rw [show (0 + fieldOffset carPhysicsFormat 26) = 45 from by decide, leNat_one]

/-- The record offset used by `extractA` is
`24 + 58 * m_playerCarIndex` with the index read from header byte 22. -/
theorem extractA_offset (d : Datagram) :
    calcsize packetHeaderFormat +
      calcsize carTelemetryFormat *
        ((unpackFields packetHeaderFormat d 0).getD 8 0).toNat =
    24 + 58 * byteAt d 22 := by
  rw [hdrA_player, Int.toNat_natCast]
  rfl

/-- When the datagram holds the whole addressed record, `extractA` yields
the signed gear byte at record offset 15 and the rev-lights byte at 19. -/
theorem extractA_eq (d : Datagram)
    (hrec : 24 + 58 * byteAt d 22 + 58 ≤ d.length) :
    extractA d = some (toSigned (byteAt d (24 + 58 * byteAt d 22 + 15)) 8,
                       (byteAt d (24 + 58 * byteAt d 22 + 19) : Int)) := by
  simp only [extractA, unpackFrom]
  rw [extractA_offset, calcsize_carTelemetry, if_pos hrec]
  simp only [telemetry_gear, telemetry_rev]

/-- When the datagram is too short for the addressed record, the
`unpack_from` in `extractA` raises `struct.error`. -/
theorem extractA_none (d : Datagram)
    (hshort : d.length < 24 + 58 * byteAt d 22 + 58) :
    extractA d = none := by
  simp only [extractA, unpackFrom]
  rw [extractA_offset, calcsize_carTelemetry, if_neg (by omega)]

/-! ## Python list subscription lemmas -/

/-- A subscript outside `-len .. len-1` raises `IndexError`. -/
theorem pyGetElem_outside (xs : List α) (i : Int)
    (h : i < -(xs.length : Int) ∨ (xs.length : Int) ≤ i) : pyGetElem xs i = none := by
  unfold pyGetElem
  rcases h with h | h
  · rw [if_neg (by omega), if_neg (by omega)]
  · rw [if_pos (by omega)]
    exact List.get?_eq_none.mpr (by omega)

/-- A nonnegative in-range subscript reads from the front. -/
theorem pyGetElem_nonneg (xs : List α) (i : Int) (dflt : α)
    (h0 : 0 ≤ i) (h1 : i < (xs.length : Int)) :
    pyGetElem xs i = some (xs.getD i.toNat dflt) := by
  unfold pyGetElem
  rw [if_pos h0]
  cases hx : xs.get? i.toNat with
  | none => exact absurd (List.get?_eq_none.mp hx) (by omega)
  | some v => rw [List.getD_eq_get?, hx]; rfl

/-- A negative in-range subscript reads element `len + i`. -/
theorem pyGetElem_negative (xs : List α) (i : Int) (dflt : α)
    (h0 : -(xs.length : Int) ≤ i) (h1 : i < 0) :
    pyGetElem xs i = some (xs.getD ((xs.length : Int) + i).toNat dflt) := by
  unfold pyGetElem
  rw [if_neg (by omega), if_pos (by omega)]
  cases hx : xs.get? ((xs.length : Int) + i).toNat with
  | none => exact absurd (List.get?_eq_none.mp hx) (by omega)
  | some v => rw [List.getD_eq_get?, hx]; rfl

/-! ## Evaluating the rendering tails -/

/-- A gear index in `0..15` renders glyph `gear` with no error (Adapter A
tail). -/
theorem renderA_nonneg (g rv : Int) (h0 : 0 ≤ g) (h1 : g ≤ 15) :
    renderA g rv =
      ⟨glyphWrites (GEAR_BITS.getD g.toNat []) ++ drawRevA rv.toNat,
       true, none⟩ := by
  have hn : pyGetElem GEAR_NAMES g = some (GEAR_NAMES.getD g.toNat "") :=
    pyGetElem_nonneg _ _ _ h0 (by rw [show GEAR_NAMES.length = 16 from rfl]; omega)
  have hb : drawGear g = some (glyphWrites (GEAR_BITS.getD g.toNat [])) := by
    unfold drawGear
    rw [pyGetElem_nonneg GEAR_BITS g []
      h0 (by rw [show GEAR_BITS.length = 16 from rfl]; omega)]
    rfl
  rw [renderA, hn, hb]

/-- A gear index in `-16..-1` renders glyph `16 + gear` — Python negative
indexing, the mechanism that maps gear `-1` to the Reverse glyph 15. -/
theorem renderA_negative (g rv : Int) (h0 : -16 ≤ g) (h1 : g < 0) :
    renderA g rv =
      ⟨glyphWrites (GEAR_BITS.getD (16 + g).toNat []) ++ drawRevA rv.toNat,
       true, none⟩ := by
  have hn : pyGetElem GEAR_NAMES g = some (GEAR_NAMES.getD (16 + g).toNat "") := by
    rw [pyGetElem_negative GEAR_NAMES g ""
      (by rw [show GEAR_NAMES.length = 16 from rfl]; omega) h1]
    rfl
  have hb : drawGear g = some (glyphWrites (GEAR_BITS.getD (16 + g).toNat [])) := by
    unfold drawGear
    rw [pyGetElem_negative GEAR_BITS g []
      (by rw [show GEAR_BITS.length = 16 from rfl]; omega) h1]
    rfl
  rw [renderA, hn, hb]

/-- A gear index outside `-16..15` raises `IndexError` before any
`set_pixel` call (Adapter A tail). -/
theorem renderA_outside (g rv : Int) (h : g < -16 ∨ 15 < g) :
    renderA g rv = ⟨[], false, some .indexError⟩ := by
  have hn : pyGetElem GEAR_NAMES g = none :=
    pyGetElem_outside _ _ (by rw [show GEAR_NAMES.length = 16 from rfl]; omega)
  have hb : drawGear g = none := by
    unfold drawGear
    rw [pyGetElem_outside GEAR_BITS g
      (by rw [show GEAR_BITS.length = 16 from rfl]; omega)]
    rfl
  rw [renderA, hn, hb]

/-- The Adapter B tail: the glyph always renders (the masked gear is at
most 15); then `draw_rev` either divides by zero or paints the meter. -/
theorem renderB_eval (g rpm maxrpm : Nat) (hg : g ≤ 15) :
    renderB g rpm maxrpm =
      if maxrpm = 0 then
        ⟨glyphWrites (GEAR_BITS.getD g []), false, some .zeroDivisionError⟩
      else
        ⟨glyphWrites (GEAR_BITS.getD g []) ++
          drawRev ((rpm : ℚ) / (maxrpm : ℚ)), true, none⟩ := by
  have hn : pyGetElem GEAR_NAMES (g : Int) = some (GEAR_NAMES.getD g "") := by
    rw [pyGetElem_nonneg GEAR_NAMES _ _ (Int.natCast_nonneg g)
      (by rw [show GEAR_NAMES.length = 16 from rfl]; omega), Int.toNat_natCast]
  have hb : drawGear (g : Int) = some (glyphWrites (GEAR_BITS.getD g [])) := by
    unfold drawGear
    rw [pyGetElem_nonneg GEAR_BITS _ []
      (Int.natCast_nonneg g)
      (by rw [show GEAR_BITS.length = 16 from rfl]; omega), Int.toNat_natCast]
    rfl
  by_cases hm : maxrpm = 0
  · rw [renderB, hn, hb, if_pos hm]
    simp [drawRevB, hm]
  · rw [renderB, hn, hb, if_neg hm]
    simp [drawRevB, hm]

/-! ## Gate characterizations of the two pipelines -/

/-- The Adapter A acceptance condition as §4.1/§8 of the spec state it:
at least the 24-byte header, `format_version` (u16 at offset 0) equal to
2020, and `packet_type` (u8 at offset 5) equal to the car-telemetry
discriminant 6.  Written from the spec's words, to be compared with
`processA`. -/
def classifyGateA (d : Datagram) : Prop :=
  24 ≤ d.length ∧ leNat d 0 2 = 2020 ∧ byteAt d 5 = 6

instance (d : Datagram) : Decidable (classifyGateA d) := by
  unfold classifyGateA
  infer_instance

/-- The Adapter B acceptance condition as §4.1/§8 of the spec state it:
at least the 12-byte header and `packet_type` (u8 at offset 10) equal to
the car-physics discriminant 0 — no format-version test.  Written from the
spec's words, to be compared with `processB`. -/
def classifyGateB (d : Datagram) : Prop :=
  12 ≤ d.length ∧ byteAt d 10 = 0

instance (d : Datagram) : Decidable (classifyGateB d) := by
  unfold classifyGateB
  infer_instance

/-- A datagram failing the Adapter A gate is dropped with no writes, no
flush and no error. -/
theorem processA_ignored (d : Datagram) (h : ¬ classifyGateA d) :
    processA d = ⟨[], false, none⟩ := by
  by_cases h1 : 24 ≤ d.length
  · simp only [processA, calcsize_hdrA, hdrA_format, hdrA_id]
    rw [if_pos h1, if_neg]
    intro ⟨ha, hb⟩
    exact h ⟨h1, by exact_mod_cast ha, by exact_mod_cast hb⟩
  · simp only [processA, calcsize_hdrA]
    rw [if_neg h1]

/-- A datagram passing the Adapter A gate reaches extraction. -/
theorem processA_accepted (d : Datagram) (h : classifyGateA d) :
    processA d =
      match extractA d with
      | none => ⟨[], false, some .structError⟩
      | some (g, rv) => renderA g rv := by
  simp only [processA, calcsize_hdrA, hdrA_format, hdrA_id]
  rw [if_pos h.1, if_pos ⟨by exact_mod_cast h.2.1, by exact_mod_cast h.2.2⟩]

/-- A datagram failing the Adapter B gate is dropped with no writes, no
flush and no error. -/
theorem processB_ignored (d : Datagram) (h : ¬ classifyGateB d) :
    processB d = ⟨[], false, none⟩ := by
  by_cases h1 : 12 ≤ d.length
  · simp only [processB, hdrB_type]
    rw [if_pos h1, if_neg]
    intro ha
    exact h ⟨h1, by exact_mod_cast ha⟩
  · simp only [processB]
    rw [if_neg h1]

/-- A datagram passing the Adapter B gate reaches the exact-length check
and, when the length is exactly 559, the rendering tail. -/
theorem processB_accepted (d : Datagram) (h : classifyGateB d) :
    processB d =
      if d.length = 559 then
        renderB (byteAt d 45 &&& 0x0F) (leNat d 40 2) (leNat d 42 2)
      else ⟨[], false, some .structError⟩ := by
  simp only [processB, hdrB_type, calcsize_carPhysics]
  rw [if_pos h.1, if_pos (by exact_mod_cast h.2)]
  by_cases hl : d.length = 559
  · rw [if_pos hl, if_pos hl, physics_gear, physics_rpm, physics_maxrpm,
      Int.toNat_natCast, Int.toNat_natCast, Int.toNat_natCast]
  · rw [if_neg hl, if_neg hl]

/-! ## The RPM meter loop -/

/-- The meter path has exactly 15 entries. -/
theorem RPM_LEDS_length : RPM_LEDS.length = 15 := rfl

/-- The painted-off test: a write with color `(0,0,0)`. -/
def isOff (w : Write) : Bool := w.r == 0 && w.g == 0 && w.b == 0

/-- Number of illuminated (non-black) writes in a paint list. -/
def litCount (ws : List Write) : Nat := (ws.filter fun w => !(isOff w)).length

/-- The write painting path cell `l` with its own `RPM_LEDS` color. -/
def litWrite (l : Nat) : Write :=
  let led := RPM_LEDS.getD l default
  ⟨led.col, led.row, led.red, led.green, led.blue⟩

/-- The write painting path cell `l` black. -/
def offWrite (l : Nat) : Write :=
  let led := RPM_LEDS.getD l default
  ⟨led.col, led.row, 0, 0, 0⟩

/-- `⌊q⌋` agrees with the executable `Rat.floor`. -/
theorem floor_eq_ratFloor (q : ℚ) : ⌊q⌋ = q.floor := by
  rw [Rat.floor_def]
  exact (Rat.floor_def' q).symm

/-- `pyRound` returns the floor or the floor plus one. -/
theorem pyRound_eq_floor_or_succ (q : ℚ) :
    pyRound q = ⌊q⌋ ∨ pyRound q = ⌊q⌋ + 1 := by
  unfold pyRound
  rw [← floor_eq_ratFloor]
  split_ifs <;> simp

/-- `pyRound` of a nonnegative rational is nonnegative. -/
theorem pyRound_nonneg (q : ℚ) (h : 0 ≤ q) : 0 ≤ pyRound q := by
  have h1 : (0 : Int) ≤ ⌊q⌋ := Int.le_floor.mpr (by exact_mod_cast h)
  rcases pyRound_eq_floor_or_succ q with h2 | h2 <;> omega

/-- `pyRound` never rounds past an integer upper bound. -/
theorem pyRound_le_of_le (q : ℚ) (n : ℤ) (h : q ≤ (n : ℚ)) : pyRound q ≤ n := by
  have hfl : ⌊q⌋ ≤ n := by
    have h2 := Int.floor_mono h
    rwa [Int.floor_intCast] at h2
  by_cases heq : ⌊q⌋ = n
  · have hq : q = (n : ℚ) := by
      refine le_antisymm h ?_
      calc (n : ℚ) = (⌊q⌋ : ℚ) := by exact_mod_cast heq.symm
        _ ≤ q := Int.floor_le q
    subst hq
    unfold pyRound
    rw [← floor_eq_ratFloor, Int.floor_intCast]
    rw [if_pos (by norm_num)]
  · have hlt : ⌊q⌋ < n := lt_of_le_of_ne hfl heq
    rcases pyRound_eq_floor_or_succ q with h2 | h2 <;> omega

/-- The per-LED loop only looks at whether `l < stop`, so any stop value
paints the same cells as its clamp to `0..15`. -/
theorem drawRevStop_clamp (stop : Int) :
    drawRevStop stop = drawRevStop (min (max stop 0) 15) := by
  unfold drawRevStop
  apply List.map_congr_left
  intro l hl
  have hl15 : l < 15 := by
    simpa [RPM_LEDS_length] using List.mem_range.mp hl
  have hiff : ((l : Int) < stop) ↔ ((l : Int) < min (max stop 0) 15) := by omega
  simp only [hiff]

/-- Full description of the per-LED loop for a stop value in `0..15`:
the 15 fixed cells are written in path order, the first `stop` with their
own colors, the rest black. -/
theorem drawRevStop_cases (c : Int) (h0 : 0 ≤ c) (h1 : c ≤ 15) :
    ((drawRevStop c).map fun w => (w.x, w.y)) =
      (RPM_LEDS.map fun led => (led.col, led.row)) ∧
    litCount (drawRevStop c) = c.toNat ∧
    (∀ l : Nat, l < 15 → l < c.toNat →
      (drawRevStop c).get? l = some (litWrite l)) ∧
    (∀ l : Nat, l < 15 → c.toNat ≤ l →
      (drawRevStop c).get? l = some (offWrite l)) := by
  interval_cases c <;> exact (by decide)

/-- Every path cell is written by the per-LED loop, whatever the stop. -/
theorem drawRevStop_hits (c : Int) (h0 : 0 ≤ c) (h1 : c ≤ 15) :
    ∀ led ∈ RPM_LEDS,
      ((drawRevStop c).filter fun w => w.x == led.col && w.y == led.row) ≠ [] := by
  interval_cases c <;> decide

/-- `drawRev` with the path length folded in. -/
theorem drawRev_def2 (q : ℚ) : drawRev q = drawRevStop (pyRound (q * 15)) := by
  unfold drawRev
  norm_num [RPM_LEDS_length]

/-- The last color written to pixel `(x, y)` by a paint list. -/
def lastWriteAt (ws : List Write) (x y : Nat) : Option Write :=
  (ws.filter fun w => w.x == x && w.y == y).getLast?

/-! ## The claims -/

/-- C1: for every Adapter-A datagram whose header carries format_version
2020 and the car-telemetry packet type (and that is long enough for the
addressed record), the extracted gear and rev_lights_percent equal the
bytes encoded at offset `24 + 58 * player_index` plus the fields' fixed
offsets 15 (signed) and 19 inside the 58-byte record — in particular the
record of the player's car, not car 0, is read when `player_index > 0`. -/
theorem c1_adapterA_offset_extraction (d : Datagram)
    (_hhdr : 24 ≤ d.length) (_hver : leNat d 0 2 = 2020)
    (_hid : byteAt d 5 = 6)
    (hrec : 24 + 58 * byteAt d 22 + 58 ≤ d.length) :
    extractA d = some (toSigned (byteAt d (24 + 58 * byteAt d 22 + 15)) 8,
                       (byteAt d (24 + 58 * byteAt d 22 + 19) : Int)) :=
  extractA_eq d hrec

/-- C3: a datagram reaches extraction and rendering iff it passes the
adapter's classification gate (Adapter A: at least 24 bytes, format 2020
and packet type 6; Adapter B: at least 12 bytes and packet type 0, with no
format-version condition); a datagram failing its gate produces zero
display writes (and no flush and no error). -/
theorem c3_classification_gate (d : Datagram) :
    (processA d = ⟨[], false, none⟩ ↔ ¬ classifyGateA d) ∧
    (processB d = ⟨[], false, none⟩ ↔ ¬ classifyGateB d) := by
  constructor
  · constructor
    · intro hres hgate
      rw [processA_accepted d hgate] at hres
      cases hx : extractA d with
      | none => rw [hx] at hres; simp at hres
      | some p =>
        obtain ⟨g, rv⟩ := p
        rw [hx] at hres
        have hres2 : renderA g rv = (⟨[], false, none⟩ : CycleResult) := hres
        by_cases hg1 : g < -16 ∨ 15 < g
        · rw [renderA_outside g rv hg1] at hres2
          simp at hres2
        · push_neg at hg1
          by_cases hg2 : 0 ≤ g
          · rw [renderA_nonneg g rv hg2 hg1.2] at hres2
            simp at hres2
          · rw [renderA_negative g rv hg1.1 (by omega)] at hres2
            simp at hres2
    · exact processA_ignored d
  · constructor
    · intro hres hgate
      rw [processB_accepted d hgate] at hres
      by_cases hl : d.length = 559
      · rw [if_pos hl, renderB_eval _ _ _ Nat.and_le_right] at hres
        by_cases hm : leNat d 42 2 = 0
        · rw [if_pos hm] at hres
          simp at hres
        · rw [if_neg hm] at hres
          simp at hres
      · rw [if_neg hl] at hres
        simp at hres
    · exact processB_ignored d

/-- C5 (amended): a datagram that passes classification but is too short
for the required record (Adapter A), or whose length is not the fixed
559-byte car-physics size (Adapter B), makes `unpack`/`unpack_from` raise
`struct.error` before any display write — but the exception is uncaught,
so the receive loop terminates instead of continuing with the next
datagram. -/
theorem c5_truncated_packet_is_fatal :
    (∀ d : Datagram, classifyGateA d →
        d.length < 24 + 58 * byteAt d 22 + 58 →
        processA d = ⟨[], false, some .structError⟩) ∧
    (∀ d : Datagram, classifyGateB d → d.length ≠ 559 →
        processB d = ⟨[], false, some .structError⟩) ∧
    (∀ (proc : Datagram → CycleResult) (d : Datagram) (rest : List Datagram),
        (proc d).error.isSome → runLoop proc (d :: rest) = [proc d]) := by
  refine ⟨?_, ?_, ?_⟩
  · intro d hg hshort
    rw [processA_accepted d hg, extractA_none d hshort]
  · intro d hg hne
    rw [processB_accepted d hg, if_neg hne]
  · intro proc d rest herr
    simp only [runLoop]
    rw [if_pos herr]

/-- C6 (amended): an Adapter-A gear byte outside the documented range
does not raise any `FieldOutOfRange`: the glyph tables ARE subscripted
with the raw value under Python indexing semantics — a gear in `-16..-1`
(such as `-5`) silently renders glyph entry `16 + gear`, a gear in `0..15`
renders entry `gear`, and only a gear outside `-16..15` escapes with an
uncaught `IndexError`. -/
theorem c6_gear_negative_indexing (d : Datagram)
    (hgate : classifyGateA d)
    (hrec : 24 + 58 * byteAt d 22 + 58 ≤ d.length) :
    (0 ≤ toSigned (byteAt d (24 + 58 * byteAt d 22 + 15)) 8 →
      toSigned (byteAt d (24 + 58 * byteAt d 22 + 15)) 8 ≤ 15 →
      processA d = ⟨glyphWrites (GEAR_BITS.getD
          (toSigned (byteAt d (24 + 58 * byteAt d 22 + 15)) 8).toNat []) ++
        drawRevA (byteAt d (24 + 58 * byteAt d 22 + 19)), true, none⟩) ∧
    (-16 ≤ toSigned (byteAt d (24 + 58 * byteAt d 22 + 15)) 8 →
      toSigned (byteAt d (24 + 58 * byteAt d 22 + 15)) 8 < 0 →
      processA d = ⟨glyphWrites (GEAR_BITS.getD
          (16 + toSigned (byteAt d (24 + 58 * byteAt d 22 + 15)) 8).toNat []) ++
        drawRevA (byteAt d (24 + 58 * byteAt d 22 + 19)), true, none⟩) ∧
    (toSigned (byteAt d (24 + 58 * byteAt d 22 + 15)) 8 < -16 ∨
       15 < toSigned (byteAt d (24 + 58 * byteAt d 22 + 15)) 8 →
      processA d = ⟨[], false, some .indexError⟩) := by
  refine ⟨?_, ?_, ?_⟩
  · intro h0 h1
    rw [processA_accepted d hgate, extractA_eq d hrec]
    show renderA _ _ = _
    rw [renderA_nonneg _ _ h0 h1, Int.toNat_natCast]
  · intro h0 h1
    rw [processA_accepted d hgate, extractA_eq d hrec]
    show renderA _ _ = _
    rw [renderA_negative _ _ h0 h1, Int.toNat_natCast]
  · intro h
    rw [processA_accepted d hgate, extractA_eq d hrec]
    show renderA _ _ = _
    rw [renderA_outside _ _ h]

/-- C2 (amended): for an Adapter-B car-physics datagram that unpacks
(length exactly 559, packet type 0), the gear passed to the renderer is
the combined byte's low 4 bits; when `max_rpm ≠ 0` the meter is painted
from the unclamped ratio `rpm / max_rpm` (the lit prefix saturates at the
15 path cells), but when `max_rpm = 0` the division raises an uncaught
`ZeroDivisionError` instead of treating the ratio as 0. -/
theorem c2_adapterB_gear_and_ratio (d : Datagram)
    (hlen : d.length = 559) (htype : byteAt d 10 = 0) :
    (leNat d 42 2 ≠ 0 →
      processB d = ⟨glyphWrites (GEAR_BITS.getD (byteAt d 45 &&& 0x0F) []) ++
        drawRev ((leNat d 40 2 : ℚ) / (leNat d 42 2 : ℚ)), true, none⟩) ∧
    (leNat d 42 2 = 0 →
      processB d = ⟨glyphWrites (GEAR_BITS.getD (byteAt d 45 &&& 0x0F) []),
        false, some .zeroDivisionError⟩) := by
  have hgate : classifyGateB d := ⟨by omega, htype⟩
  constructor
  · intro hm
    rw [processB_accepted d hgate, if_pos hlen,
      renderB_eval _ _ _ Nat.and_le_right, if_neg hm]
  · intro hm
    rw [processB_accepted d hgate, if_pos hlen,
      renderB_eval _ _ _ Nat.and_le_right, if_pos hm]

/-- C4 (amended): for an Adapter-B car-physics datagram whose decoded
`sMaxRpm` is 0, the ratio computation raises `ZeroDivisionError` which
escapes the pipeline: the meter cells are never painted (only the gear
glyph was written), no flush happens, and the loop dies — processing does
not complete normally. -/
theorem c4_zero_maxrpm_crashes (d : Datagram)
    (hlen : d.length = 559) (htype : byteAt d 10 = 0)
    (hmax : leNat d 42 2 = 0) :
    (processB d).error = some .zeroDivisionError ∧
    (processB d).flushed = false ∧
    (processB d).writes = glyphWrites (GEAR_BITS.getD (byteAt d 45 &&& 0x0F) []) := by
  have hgate : classifyGateB d := ⟨by omega, htype⟩
  rw [processB_accepted d hgate, if_pos hlen,
    renderB_eval _ _ _ Nat.and_le_right, if_pos hmax]
  exact ⟨rfl, rfl, rfl⟩

/-- C7: for every ratio in `[0,1]` the meter renderer illuminates exactly
`round(ratio * 15)` cells counting from path index 0 (each with its own
fixed color) and paints every later path position the fixed off color
`(0,0,0)`. -/
theorem c7_meter_rounding (ratio : ℚ) (h0 : 0 ≤ ratio) (h1 : ratio ≤ 1) :
    litCount (drawRev ratio) = (pyRound (ratio * 15)).toNat ∧
    (∀ l : Nat, l < 15 → l < (pyRound (ratio * 15)).toNat →
      (drawRev ratio).get? l = some (litWrite l)) ∧
    (∀ l : Nat, l < 15 → (pyRound (ratio * 15)).toNat ≤ l →
      (drawRev ratio).get? l = some (offWrite l)) := by
  have hb0 : 0 ≤ pyRound (ratio * 15) := pyRound_nonneg _ (by positivity)
  have hb1 : pyRound (ratio * 15) ≤ 15 := by
    refine pyRound_le_of_le _ 15 ?_
    push_cast
    nlinarith
  rw [drawRev_def2]
  have h := drawRevStop_cases (pyRound (ratio * 15)) hb0 hb1
  exact ⟨h.2.1, h.2.2.1, h.2.2.2⟩

/-- C9: for every rational input ratio, in range or not, one call to the
meter renderer writes exactly the 15 fixed path cells (in path order) and
no others, and the number of illuminated cells is the lit count clamped to
`[0,15]`, with every path cell at index at least the clamped count painted
off. -/
theorem c9_meter_write_safety (ratio : ℚ) :
    ((drawRev ratio).map fun w => (w.x, w.y)) =
      (RPM_LEDS.map fun led => (led.col, led.row)) ∧
    litCount (drawRev ratio) = (min (max (pyRound (ratio * 15)) 0) 15).toNat ∧
    (∀ l : Nat, l < 15 → (min (max (pyRound (ratio * 15)) 0) 15).toNat ≤ l →
      (drawRev ratio).get? l = some (offWrite l)) := by
  rw [drawRev_def2, drawRevStop_clamp]
  have h := drawRevStop_cases (min (max (pyRound (ratio * 15)) 0) 15)
    (by omega) (by omega)
  exact ⟨h.1, h.2.1, h.2.2.2⟩

/-- C8: in the Adapter-A gear domain, gear `-1` selects the Reverse glyph
(entry 15 of the 16-entry table, via Python negative indexing) and every
gear `0..8` selects the entry of the same index unchanged. -/
theorem c8_gear_glyph_selection :
    GEAR_BITS.length = 16 ∧
    drawGear (-1) = some (glyphWrites (GEAR_BITS.getD 15 [])) ∧
    (∀ g : Nat, g ≤ 8 →
      drawGear (g : Int) = some (glyphWrites (GEAR_BITS.getD g []))) := by
  decide

/-- C10: every glyph bitmap has rows 0 and 1 blank and bits 7 and 6 clear
in every row, so the gear blit paints each of the 15 meter-path cells
black; and since the meter renderer runs after the gear blit and writes
every path cell, the last write to each path cell comes from the meter —
the final color there depends only on the RPM signal. -/
theorem c10_meter_cells_depend_only_on_rpm :
    (∀ bm ∈ GEAR_BITS, bm.getD 0 0 = 0 ∧ bm.getD 1 0 = 0 ∧
      ∀ row ∈ bm, row &&& 0xC0 = 0) ∧
    (∀ i : Nat, i < 16 → ∀ w ∈ glyphWrites (GEAR_BITS.getD i []),
      ∀ led ∈ RPM_LEDS, w.x = led.col → w.y = led.row →
        w = ⟨led.col, led.row, 0, 0, 0⟩) ∧
    (∀ bm : List Nat, ∀ ratio : ℚ, ∀ led ∈ RPM_LEDS,
      lastWriteAt (glyphWrites bm ++ drawRev ratio) led.col led.row =
      lastWriteAt (drawRev ratio) led.col led.row) := by
  refine ⟨by decide, by decide, ?_⟩
  intro bm ratio led hled
  unfold lastWriteAt
  rw [List.filter_append, List.getLast?_append]
  have hne : ((drawRev ratio).filter
      fun w => w.x == led.col && w.y == led.row) ≠ [] := by
    rw [drawRev_def2, drawRevStop_clamp]
    exact drawRevStop_hits _ (by omega) (by omega) led hled
  exact Option.or_of_isSome (List.getLast?_isSome.mpr hne)

/-! ## Concrete datagrams (witnesses and counterexamples)

Adapter-A headers carry 2020 little-endian as bytes `228, 7` and packet
id 6 at offset 5; Adapter-B car-physics packets are 559 bytes with type
byte 0 at offset 10. -/

/-- A classified Adapter-A datagram of header length only (24 bytes):
format 2020, packet id 6, player index 0 — too short for any record. -/
def dTruncC5 : Datagram :=
  (((List.replicate 24 0).set 0 228).set 1 7).set 5 6

/-- A complete Adapter-A car-telemetry datagram for player index 0
(82 bytes): gear byte 3 at offset 39, rev lights 50 at offset 43. -/
def dRenderC5 : Datagram :=
  (((((List.replicate 82 0).set 0 228).set 1 7).set 5 6).set 39 3).set 43 50

/-- An Adapter-A datagram for player index 1 (140 bytes): gear 3 and rev
lights 42 stored in the second car record (offsets 97 and 101). -/
def dC1 : Datagram :=
  ((((((List.replicate 140 0).set 0 228).set 1 7).set 5 6).set 22 1).set
    97 3).set 101 42

/-- An Adapter-A datagram with gear byte 0xFB (= -5 signed) at offset 39. -/
def dC6neg5 : Datagram :=
  ((((List.replicate 82 0).set 0 228).set 1 7).set 5 6).set 39 251

/-- The all-zero 559-byte datagram: a car-physics packet with packet type
0, rpm 0 and max rpm 0. -/
def allZero559 : Datagram := List.replicate 559 0

/-- A 559-byte car-physics datagram: rpm 5000, max rpm 0, gear byte 3. -/
def dC4rpm : Datagram :=
  (((List.replicate 559 0).set 40 136).set 41 19).set 45 3

/-- A 559-byte car-physics datagram: rpm 3000, max rpm 6000, gear byte
0x23 (low 4 bits = 3). -/
def dC2w : Datagram :=
  (((((List.replicate 559 0).set 40 184).set 41 11).set 42 112).set
    43 23).set 45 35

/-- A 4-byte datagram — the spec's malformed-input example. -/
def dBad4 : Datagram := [0, 0, 0, 0]

/-- C1 witness: on the player-index-1 datagram the extraction reads the
second car record and finds gear 3 and rev lights 42. -/
theorem c1_witness :
    byteAt dC1 22 = 1 ∧
    extractA dC1 = some (toSigned (byteAt dC1 (24 + 58 * byteAt dC1 22 + 15)) 8,
      (byteAt dC1 (24 + 58 * byteAt dC1 22 + 19) : Int)) ∧
    extractA dC1 = some (3, 42) :=
  ⟨by decide,
   c1_adapterA_offset_extraction dC1 (by decide) (by decide) (by decide) (by decide),
   by decide⟩

/-- C3 witness: the 4-byte datagram fails both gates and produces the
no-write, no-flush, no-error outcome in both pipelines. -/
theorem c3_witness :
    processA dBad4 = ⟨[], false, none⟩ ∧ processB dBad4 = ⟨[], false, none⟩ :=
  ⟨(c3_classification_gate dBad4).1.mpr (by decide),
   (c3_classification_gate dBad4).2.mpr (by decide)⟩

/-- C5 witness: the truncated-but-classified header-only datagram raises
`struct.error`, and the loop stops there. -/
theorem c5_witness :
    processA dTruncC5 = ⟨[], false, some .structError⟩ ∧
    runLoop processA (dTruncC5 :: [dRenderC5]) = [processA dTruncC5] :=
  ⟨c5_truncated_packet_is_fatal.1 dTruncC5 (by decide) (by decide),
   c5_truncated_packet_is_fatal.2.2 processA dTruncC5 [dRenderC5] (by decide)⟩

/-- C5 counterexample to the claim as stated: after the truncated
datagram the loop does NOT continue — the run over the truncated datagram
followed by a perfectly renderable one contains a single crashed cycle
(the second datagram, which alone would flush a full render, is never
processed). -/
theorem c5_counterexample :
    (processA dTruncC5).writes = [] ∧
    (processA dTruncC5).error = some .structError ∧
    (processA dRenderC5).error = none ∧
    (processA dRenderC5).flushed = true ∧
    runLoop processA [dTruncC5, dRenderC5] = [⟨[], false, some .structError⟩] := by
  decide

/-- C6 counterexample to the claim as stated: the datagram decodes gear
-5, yet no exception escapes, the cycle flushes, and the glyph table IS
subscripted with -5 — Python negative indexing returns entry 11. -/
theorem c6_counterexample :
    leNat dC6neg5 0 2 = 2020 ∧ byteAt dC6neg5 5 = 6 ∧
    toSigned (byteAt dC6neg5 39) 8 = -5 ∧
    (processA dC6neg5).error = none ∧
    (processA dC6neg5).flushed = true ∧
    pyGetElem GEAR_BITS (-5) = some (GEAR_BITS.getD 11 []) := by
  decide

/-- C6 witness: the amended statement evaluated on the gear -5 datagram:
glyph entry 16 - 5 = 11 is rendered. -/
theorem c6_witness :
    processA dC6neg5 = ⟨glyphWrites (GEAR_BITS.getD
        (16 + toSigned (byteAt dC6neg5 (24 + 58 * byteAt dC6neg5 22 + 15)) 8).toNat []) ++
      drawRevA (byteAt dC6neg5 (24 + 58 * byteAt dC6neg5 22 + 19)),
      true, none⟩ :=
  (c6_gear_negative_indexing dC6neg5 (by decide) (by decide)).2.1
    (by decide) (by decide)

/-- C2 counterexample to the claim as stated: the all-zero car-physics
packet decodes successfully with `max_rpm = 0`, and instead of using
ratio 0, the pipeline dies with `ZeroDivisionError` before any flush. -/
theorem c2_counterexample :
    allZero559.length = 559 ∧ byteAt allZero559 10 = 0 ∧
    leNat allZero559 42 2 = 0 ∧
    (processB allZero559).error = some .zeroDivisionError ∧
    (processB allZero559).flushed = false := by
  decide

/-- C2 witness: with max rpm 6000 and rpm 3000 the gear is the masked low
4 bits (3) and the meter is drawn from the ratio 3000/6000. -/
theorem c2_witness :
    processB dC2w = ⟨glyphWrites (GEAR_BITS.getD (byteAt dC2w 45 &&& 0x0F) []) ++
      drawRev ((leNat dC2w 40 2 : ℚ) / (leNat dC2w 42 2 : ℚ)), true, none⟩ :=
  (c2_adapterB_gear_and_ratio dC2w (by decide) (by decide)).1 (by decide)

/-- C4 counterexample to the claim as stated: rpm 5000 with max rpm 0
does not complete normally — the `ZeroDivisionError` escapes. -/
theorem c4_counterexample :
    dC4rpm.length = 559 ∧ byteAt dC4rpm 10 = 0 ∧ leNat dC4rpm 40 2 = 5000 ∧
    leNat dC4rpm 42 2 = 0 ∧
    (processB dC4rpm).error = some .zeroDivisionError ∧
    (processB dC4rpm).flushed = false := by
  decide

/-- C4 witness: the amended statement evaluated on the rpm-5000 /
max-rpm-0 datagram. -/
theorem c4_witness :
    (processB dC4rpm).error = some .zeroDivisionError ∧
    (processB dC4rpm).flushed = false ∧
    (processB dC4rpm).writes = glyphWrites (GEAR_BITS.getD (byteAt dC4rpm 45 &&& 0x0F) []) :=
  c4_zero_maxrpm_crashes dC4rpm (by decide) (by decide) (by decide)

/-- C7 witness: ratio 1/2 illuminates `round(7.5) = 8` cells and cell 10
is painted off. -/
theorem c7_witness :
    litCount (drawRev ((1 : ℚ)/2)) = (pyRound (((1 : ℚ)/2) * 15)).toNat ∧
    (pyRound (((1 : ℚ)/2) * 15)).toNat = 8 ∧
    (drawRev ((1 : ℚ)/2)).get? 10 = some (offWrite 10) :=
  ⟨(c7_meter_rounding ((1 : ℚ)/2) (by norm_num) (by norm_num)).1,
   by decide,
   (c7_meter_rounding ((1 : ℚ)/2) (by norm_num) (by norm_num)).2.2 10
     (by decide) (by decide)⟩

/-- C8 witness: gear 3 selects glyph entry 3. -/
theorem c8_witness :
    drawGear ((3 : Nat) : Int) = some (glyphWrites (GEAR_BITS.getD 3 [])) :=
  c8_gear_glyph_selection.2.2 3 (by decide)

/-- C9 witness: the out-of-range ratio 2.55 (an Adapter-A
rev_lights_percent of 255) still writes exactly the 15 path cells, with
the lit count clamped to 15; and for ratio 0.3 cell 10 is painted off. -/
theorem c9_witness :
    ((drawRev ((51 : ℚ)/20)).map fun w => (w.x, w.y)) =
      (RPM_LEDS.map fun led => (led.col, led.row)) ∧
    litCount (drawRev ((51 : ℚ)/20)) = 15 ∧
    (drawRev ((3 : ℚ)/10)).get? 10 = some (offWrite 10) :=
  ⟨(c9_meter_write_safety ((51 : ℚ)/20)).1,
   (c9_meter_write_safety ((51 : ℚ)/20)).2.1.trans (by decide),
   (c9_meter_write_safety ((3 : ℚ)/10)).2.2 10 (by decide) (by decide)⟩

/-- C10 witness: the Neutral glyph has blank rows 0 and 1 and clear
high bits, and after a full cycle with glyph 5 the path corner (0,7)
carries the meter's write. -/
theorem c10_witness :
    ((GEAR_BITS.getD 0 []).getD 0 0 = 0 ∧ (GEAR_BITS.getD 0 []).getD 1 0 = 0 ∧
      ∀ row ∈ GEAR_BITS.getD 0 [], row &&& 0xC0 = 0) ∧
    lastWriteAt (glyphWrites (GEAR_BITS.getD 5 []) ++ drawRev ((7 : ℚ)/10)) 0 7 =
      lastWriteAt (drawRev ((7 : ℚ)/10)) 0 7 :=
  ⟨c10_meter_cells_depend_only_on_rpm.1 (GEAR_BITS.getD 0 []) (by decide),
   c10_meter_cells_depend_only_on_rpm.2.2 (GEAR_BITS.getD 5 []) ((7 : ℚ)/10)
     ⟨7, 0, 0, 255, 0⟩ (by decide)⟩

end Pcars2Dash
